import Mathlib

/-!
Verification of the ViableOS Viability & Budget Engine specification against
the repository. The data model below is a shallow embedding of the TypeScript
types in the frontend (types.ts); the engine operations (check / allocate),
whose Python sources are not part of the repository snapshot, are modelled
from the specification where noted.

All monetary amounts are represented in the smallest currency unit (cents):
a TypeScript number of dollars becomes an integer number of cents, so the
specification's "1 unit of currency" tolerance is 1 here.
-/

namespace ViableOS

/-- Operational unit of System 1, from types.ts (S1Unit). -/
structure S1Unit where
  name : String
  purpose : String
  autonomy : Option String := none
  tools : Option (List String) := none
  model : Option String := none
  weight : Option Nat := none
  deriving Repr, DecidableEq

/-- Identity block of the viable system, from types.ts (Identity). -/
structure Identity where
  purpose : String
  values : Option (List String) := none
  never_do : Option (List String) := none
  decisions_requiring_human : Option (List String) := none
  deriving Repr, DecidableEq

/-- Coordination rule record, from types.ts (CoordinationRule). -/
structure CoordinationRule where
  trigger : String
  action : String
  scope : Option String := none
  deriving Repr, DecidableEq

/-- Budget alert thresholds, from types.ts (Budget.alerts). -/
structure BudgetAlerts where
  warn_at_percent : Option Nat := none
  auto_downgrade_at_percent : Option Nat := none
  deriving Repr, DecidableEq

/-- Budget block, from types.ts (Budget); monthly_usd is in cents and may be
non-positive in an invalid configuration. -/
structure Budget where
  monthly_usd : Int
  strategy : String
  alerts : Option BudgetAlerts := none
  deriving Repr, DecidableEq

/-- One audit check of System 3*, from types.ts (system_3_star.checks). -/
structure AuditCheck where
  name : String
  target : String
  on_failure : Option String := none
  deriving Repr, DecidableEq

/-- System 2 block, from types.ts. -/
structure System2 where
  coordination_rules : Option (List CoordinationRule) := none
  deriving Repr, DecidableEq

/-- System 3 block, from types.ts. -/
structure System3 where
  reporting_rhythm : Option String := none
  resource_allocation : Option String := none
  deriving Repr, DecidableEq

/-- System 3* block, from types.ts. -/
structure System3Star where
  checks : Option (List AuditCheck) := none
  deriving Repr, DecidableEq

/-- Monitoring lists of System 4, from types.ts. -/
structure Monitoring where
  competitors : Option (List String) := none
  technology : Option (List String) := none
  regulation : Option (List String) := none
  deriving Repr, DecidableEq

/-- System 4 block, from types.ts. -/
structure System4 where
  monitoring : Option Monitoring := none
  deriving Repr, DecidableEq

/-- Per-function model overrides, from types.ts (ModelRouting). -/
structure ModelRouting where
  provider_preference : Option String := none
  s1_routine : Option String := none
  s1_complex : Option String := none
  s2_coordination : Option String := none
  s3_optimization : Option String := none
  s3_star_audit : Option String := none
  s4_intelligence : Option String := none
  s5_preparation : Option String := none
  deriving Repr, DecidableEq

/-- Human-in-the-loop block, from types.ts (HumanInTheLoop). -/
structure HumanInTheLoop where
  notification_channel : Option String := none
  approval_required : Option (List String) := none
  review_required : Option (List String) := none
  emergency_alerts : Option (List String) := none
  deriving Repr, DecidableEq

/-- Persistence block, from types.ts (Persistence). -/
structure Persistence where
  strategy : String
  path : Option String := none
  deriving Repr, DecidableEq

/-- Root viable-system record, from types.ts (ViableSystem). -/
structure ViableSystem where
  name : String
  runtime : Option String := none
  identity : Identity
  system_1 : List S1Unit
  system_2 : Option System2 := none
  system_3 : Option System3 := none
  system_3_star : Option System3Star := none
  system_4 : Option System4 := none
  budget : Option Budget := none
  model_routing : Option ModelRouting := none
  human_in_the_loop : Option HumanInTheLoop := none
  persistence : Option Persistence := none
  deriving Repr, DecidableEq

/-- Root config record, from types.ts (Config). -/
structure Config where
  viable_system : ViableSystem
  deriving Repr, DecidableEq

/-- Warning severity, from types.ts (Warning.severity). -/
inductive Severity where
  | info
  | warning
  | critical
  deriving Repr, DecidableEq, BEq

/-- Pathology warning record, from types.ts (Warning). -/
structure Warning where
  category : String
  severity : Severity
  message : String
  suggestion : String
  deriving Repr, DecidableEq

/-- One presence check of the viability report, from types.ts (CheckResult). -/
structure CheckResult where
  system : String
  name : String
  present : Bool
  details : String
  suggestions : List String
  deriving Repr, DecidableEq

/-- Viability report, from types.ts (ViabilityReport). -/
structure ViabilityReport where
  score : Nat
  total : Nat
  checks : List CheckResult
  warnings : List Warning
  deriving Repr, DecidableEq

/-- One budget allocation, from types.ts (BudgetAllocation); monthly_usd in
cents, percentage an integer. -/
structure BudgetAllocation where
  system : String
  friendly_name : String
  monthly_usd : Nat
  model : String
  percentage : Int
  deriving Repr, DecidableEq

/-- Budget plan, from types.ts (BudgetPlan); model_routing as an association
list from routing key to resolved model id. -/
structure BudgetPlan where
  total_monthly_usd : Nat
  strategy : String
  allocations : List BudgetAllocation
  model_routing : List (String × String)
  deriving Repr, DecidableEq

/-! ## Frontend components embedded from the TypeScript source -/

/-- From VsmDiagram.tsx line 71: the diagram's S4 "configured" flag is
computed from the competitors and technology monitoring lists only. -/
def hasS4 (vs : ViableSystem) : Bool :=
  let s4 := vs.system_4.getD {}
  !(((s4.monitoring.bind (fun m => m.competitors)).getD []).isEmpty)
    || !(((s4.monitoring.bind (fun m => m.technology)).getD []).isEmpty)

/-- From WarningsPanel.tsx: the list of warnings actually rendered, given the
collapse state of the non-critical section. Critical warnings are always
rendered; the others only when expanded. The empty-list early return of the
component is the leading guard. -/
def renderedWarnings (warnings : List Warning) (expanded : Bool) : List Warning :=
  if warnings.isEmpty then []
  else
    warnings.filter (fun w => w.severity == Severity.critical)
      ++ (if expanded then warnings.filter (fun w => !(w.severity == Severity.critical)) else [])

/-- JavaScript String.prototype.trim: drop whitespace from both ends,
embedded on the character list so it computes by reduction. -/
def jsTrim (s : String) : String :=
  ⟨((s.data.dropWhile Char.isWhitespace).reverse.dropWhile Char.isWhitespace).reverse⟩

/-- From ChipsWithFreeText.tsx (addCustom): trim the input; if empty or
already selected, leave the selection unchanged (the component skips the
onChange call), otherwise append it once at the end. The local variable
trimmed of the source is inlined. -/
def addCustom (selected : List String) (custom : String) : List String :=
  if jsTrim custom = "" ∨ jsTrim custom ∈ selected then selected
  else selected ++ [jsTrim custom]

/-- Per-unit allocation keys have the form "S1:" ++ name; this is the
startsWith("S1:") test of the dashboard, embedded on the character list so it
computes by reduction. -/
def isOperationalKey (s : String) : Bool :=
  s.data.take 3 == ['S', '1', ':']

/-- Partial ViableSystem update, mirroring the TypeScript Partial type used by
updateVs in useConfigStore.ts: the outer Option is presence of the key in the
partial object; for fields already optional in ViableSystem the inner Option
is the field value itself. -/
structure PartialViableSystem where
  name : Option String := none
  runtime : Option (Option String) := none
  identity : Option Identity := none
  system_1 : Option (List S1Unit) := none
  system_2 : Option (Option System2) := none
  system_3 : Option (Option System3) := none
  system_3_star : Option (Option System3Star) := none
  system_4 : Option (Option System4) := none
  budget : Option (Option Budget) := none
  model_routing : Option (Option ModelRouting) := none
  human_in_the_loop : Option (Option HumanInTheLoop) := none
  persistence : Option (Option Persistence) := none
  deriving Repr

/-- JavaScript object-spread semantics of the merge in updateVs
(useConfigStore.ts lines 38-46): keys present in the partial win, all other
keys keep the previous value. -/
def mergeVs (vs : ViableSystem) (p : PartialViableSystem) : ViableSystem where
  name := p.name.getD vs.name
  runtime := p.runtime.getD vs.runtime
  identity := p.identity.getD vs.identity
  system_1 := p.system_1.getD vs.system_1
  system_2 := p.system_2.getD vs.system_2
  system_3 := p.system_3.getD vs.system_3
  system_3_star := p.system_3_star.getD vs.system_3_star
  system_4 := p.system_4.getD vs.system_4
  budget := p.budget.getD vs.budget
  model_routing := p.model_routing.getD vs.model_routing
  human_in_the_loop := p.human_in_the_loop.getD vs.human_in_the_loop
  persistence := p.persistence.getD vs.persistence

/-- Store state of useConfigStore.ts. -/
structure ConfigStore where
  config : Config
  wizardStep : Nat
  view : String
  templateKey : Option String
  deriving Repr

/-- From useConfigStore.ts lines 38-46: updateVs reads the current config and
sets a fresh config whose viable_system is the spread merge of the old
viable_system with the partial; all other store fields are untouched. -/
def updateVs (s : ConfigStore) (p : PartialViableSystem) : ConfigStore :=
  { s with
    config := { s.config with viable_system := mergeVs s.config.viable_system p } }

/-! ## Viability Checker (engine)

The checker's Python implementation is not part of the repository snapshot
(only the frontend consumes its output), so it is modelled here from the
specification, section 4.1. -/

/-- Modelled from the spec: the coordination rules of System 2, empty when
the block or its list is absent. -/
def s2Rules (vs : ViableSystem) : List CoordinationRule :=
  (vs.system_2.bind (fun s => s.coordination_rules)).getD []

/-- Modelled from the spec: the audit checks of System 3*, empty when the
block or its list is absent. -/
def s3starChecks (vs : ViableSystem) : List AuditCheck :=
  (vs.system_3_star.bind (fun s => s.checks)).getD []

/-- Modelled from the spec: the monitoring lists of System 4, all empty when
the block is absent. -/
def s4Monitoring (vs : ViableSystem) : Monitoring :=
  (vs.system_4.bind (fun s => s.monitoring)).getD {}

/-- Modelled from the spec: S1 is present when system_1 is non-empty. -/
def s1Present (vs : ViableSystem) : Bool :=
  !vs.system_1.isEmpty

/-- Modelled from the spec: S2 is present when coordination_rules is
non-empty. -/
def s2Present (vs : ViableSystem) : Bool :=
  !(s2Rules vs).isEmpty

/-- Modelled from the spec: S3 is present when reporting_rhythm or
resource_allocation is set. -/
def s3Present (vs : ViableSystem) : Bool :=
  match vs.system_3 with
  | none => false
  | some s3 => s3.reporting_rhythm.isSome || s3.resource_allocation.isSome

/-- Modelled from the spec: S3* is present when the audit check list is
non-empty. -/
def s3starPresent (vs : ViableSystem) : Bool :=
  !(s3starChecks vs).isEmpty

/-- Modelled from the spec: S4 is present when any of the competitors,
technology or regulation monitoring lists is non-empty. -/
def s4Present (vs : ViableSystem) : Bool :=
  let m := s4Monitoring vs
  !((m.competitors.getD []).isEmpty)
    || !((m.technology.getD []).isEmpty)
    || !((m.regulation.getD []).isEmpty)

/-- Modelled from the spec: S5 is present when identity.purpose is
non-empty. -/
def s5Present (vs : ViableSystem) : Bool :=
  !vs.identity.purpose.isEmpty

/-- Modelled from the spec: the six presence checks of the viability report,
in the fixed canonical order S1, S2, S3, S3*, S4, S5. -/
def checkResults (vs : ViableSystem) : List CheckResult :=
  [{ system := "S1", name := "Operations", present := s1Present vs,
     details := toString vs.system_1.length ++ " units: "
       ++ String.intercalate ", " (vs.system_1.map (fun u => u.name)),
     suggestions := if s1Present vs then [] else ["Add at least one operational unit"] },
   { system := "S2", name := "Coordination", present := s2Present vs,
     details := toString (s2Rules vs).length ++ " coordination rules",
     suggestions := if s2Present vs then [] else ["Add at least one coordination rule"] },
   { system := "S3", name := "Optimization", present := s3Present vs,
     details := (if (vs.system_3.bind (fun s => s.reporting_rhythm)).isSome then "reporting rhythm set" else "no reporting rhythm")
       ++ ", "
       ++ (if (vs.system_3.bind (fun s => s.resource_allocation)).isSome then "resource allocation set" else "no resource allocation"),
     suggestions := if s3Present vs then [] else ["Define a reporting rhythm or resource allocation"] },
   { system := "S3*", name := "Audit", present := s3starPresent vs,
     details := toString (s3starChecks vs).length ++ " audit checks",
     suggestions := if s3starPresent vs then [] else ["Add independent audit checks"] },
   { system := "S4", name := "Intelligence", present := s4Present vs,
     details := (if !(((s4Monitoring vs).competitors.getD []).isEmpty) then "competitors " else "")
       ++ (if !(((s4Monitoring vs).technology.getD []).isEmpty) then "technology " else "")
       ++ (if !(((s4Monitoring vs).regulation.getD []).isEmpty) then "regulation" else ""),
     suggestions := if s4Present vs then [] else ["Add monitoring targets"] },
   { system := "S5", name := "Identity", present := s5Present vs,
     details := vs.identity.purpose,
     suggestions := if s5Present vs then [] else ["Define the organization purpose"] }]

/-- Modelled from the spec: the least-restricted autonomy level of the
autonomy enumeration. -/
def highestAutonomy : String := "full_auto"

/-- Modelled from the spec: the fixed minimum viable budget (in cents), the
smallest value for which a paid-tier model can be assigned everywhere. -/
def minViableBudgetCents : Nat := 2000

/-- Modelled from the spec: the pathology warning rules of the checker,
evaluated independently of the presence checks. The single-provider audit
rule is skipped because the checker is invoked without a budget plan. -/
def warningsOf (vs : ViableSystem) : List Warning :=
  (if vs.system_1.countP (fun u => u.autonomy == some highestAutonomy) = 1 then
     [{ category := "operations", severity := Severity.warning,
        message := "Single point of failure: exactly one unit at the least-restricted autonomy level",
        suggestion := "Add a second autonomous unit or reduce autonomy" }]
   else [])
  ++ (if vs.system_1.any (fun u => u.autonomy == some highestAutonomy) && !(s3starPresent vs) then
     [{ category := "audit", severity := Severity.critical,
        message := "High-autonomy unit without independent audit",
        suggestion := "Add system_3_star checks" }]
   else [])
  ++ (if ((vs.identity.never_do.getD []).isEmpty) then
     [{ category := "identity", severity := Severity.info,
        message := "No boundaries defined",
        suggestion := "Add never_do entries" }]
   else [])
  ++ (match vs.budget with
      | some b =>
        if b.monthly_usd < (minViableBudgetCents : Int) then
          [{ category := "budget", severity := Severity.warning,
             message := "Budget below viable floor",
             suggestion := "Increase the monthly budget" }]
        else []
      | none => [])
  ++ (if !(s2Rules vs).isEmpty && vs.system_1.isEmpty then
     [{ category := "coordination", severity := Severity.info,
        message := "Coordination rules defined without operational units",
        suggestion := "Add units or remove the rules" }]
   else [])

/-- Modelled from the spec: the Viability Checker. Total: every Config gets a
report with the six checks, a score counting the present systems, and the
pathology warnings. -/
def check (cfg : Config) : ViabilityReport :=
  let checks := checkResults cfg.viable_system
  { score := checks.countP (fun c => c.present)
    total := 6
    checks := checks
    warnings := warningsOf cfg.viable_system }

/-! ## Budget Allocator (engine)

The allocator's Python implementation is likewise not part of the snapshot;
it is modelled from the specification, section 4.2, with the strategy tables
following the README's tier table. -/

/-- Modelled from the spec: the strategy enumeration; unknown strings fall
back to balanced to keep the engine total. -/
inductive Strategy where
  | frugal
  | balanced
  | performance
  deriving Repr, DecidableEq

/-- Modelled from the spec: parse the strategy string. -/
def toStrategy (s : String) : Strategy :=
  if s = "frugal" then Strategy.frugal
  else if s = "performance" then Strategy.performance
  else Strategy.balanced

/-- Modelled from the spec: the fixed enumeration of routing slots. -/
inductive Slot where
  | s1_routine
  | s1_complex
  | s2_coordination
  | s3_optimization
  | s3_star_audit
  | s4_intelligence
  | s5_preparation
  deriving Repr, DecidableEq

/-- Modelled from the spec: the static Model Catalog mapping model id to
provider family. -/
def modelCatalog : List (String × String) :=
  [("claude-haiku", "anthropic"), ("claude-sonnet", "anthropic"),
   ("claude-opus", "anthropic"), ("gpt-5-mini", "openai"),
   ("gpt-5.1", "openai"), ("gpt-5.2", "openai")]

/-- Modelled from the spec: the provider family of a model id. -/
def modelProvider (m : String) : String :=
  (modelCatalog.lookup m).getD "unknown"

/-- Modelled from the spec: the strategy-to-tier default model table, per
routing slot, following the README's tier table. -/
def defaultModel : Strategy → Slot → String
  | Strategy.frugal, Slot.s1_routine => "claude-haiku"
  | Strategy.frugal, Slot.s1_complex => "claude-haiku"
  | Strategy.frugal, Slot.s2_coordination => "claude-haiku"
  | Strategy.frugal, Slot.s3_optimization => "claude-haiku"
  | Strategy.frugal, Slot.s3_star_audit => "gpt-5-mini"
  | Strategy.frugal, Slot.s4_intelligence => "claude-sonnet"
  | Strategy.frugal, Slot.s5_preparation => "claude-haiku"
  | Strategy.balanced, Slot.s1_routine => "claude-haiku"
  | Strategy.balanced, Slot.s1_complex => "claude-sonnet"
  | Strategy.balanced, Slot.s2_coordination => "claude-haiku"
  | Strategy.balanced, Slot.s3_optimization => "claude-sonnet"
  | Strategy.balanced, Slot.s3_star_audit => "gpt-5.1"
  | Strategy.balanced, Slot.s4_intelligence => "claude-opus"
  | Strategy.balanced, Slot.s5_preparation => "claude-sonnet"
  | Strategy.performance, Slot.s1_routine => "claude-sonnet"
  | Strategy.performance, Slot.s1_complex => "claude-opus"
  | Strategy.performance, Slot.s2_coordination => "claude-sonnet"
  | Strategy.performance, Slot.s3_optimization => "claude-opus"
  | Strategy.performance, Slot.s3_star_audit => "gpt-5.2"
  | Strategy.performance, Slot.s4_intelligence => "claude-opus"
  | Strategy.performance, Slot.s5_preparation => "claude-opus"

/-- Modelled from the spec: the configured fallback auditor model for a
provider family that must be avoided. -/
def fallbackAuditor (prov : String) : String :=
  if prov = "openai" then "claude-sonnet" else "gpt-5.1"

/-- Modelled from the spec: the auditor default after the provider-diversity
constraint against the default S1 routine model's provider. -/
def resolveAuditorDefault (s : Strategy) : String :=
  let prov := modelProvider (defaultModel s Slot.s1_routine)
  let aud := defaultModel s Slot.s3_star_audit
  if modelProvider aud = prov then fallbackAuditor prov else aud

/-- The model_routing overrides of a config, empty when absent. -/
def routingOf (cfg : Config) : ModelRouting :=
  (cfg.viable_system.model_routing).getD {}

/-- Modelled from the spec: the Auditor's resolved model; an explicit user
override wins verbatim, otherwise the diversity-adjusted default. -/
def resolvedAuditor (cfg : Config) (strat : Strategy) : String :=
  match (routingOf cfg).s3_star_audit with
  | some m => m
  | none => resolveAuditorDefault strat

/-- Modelled from the spec: an operational unit's resolved model; the unit's
own override, else the s1_routine routing override, else the table default. -/
def resolveUnitModel (cfg : Config) (strat : Strategy) (u : S1Unit) : String :=
  u.model.getD (((routingOf cfg).s1_routine).getD (defaultModel strat Slot.s1_routine))

/-- Modelled from the spec: the model_routing mapping of the plan, covering
the seven fixed routing slots plus one entry per S1 unit. -/
def resolveRouting (cfg : Config) (strat : Strategy) : List (String × String) :=
  let mr := routingOf cfg
  [("s1_routine", mr.s1_routine.getD (defaultModel strat Slot.s1_routine)),
   ("s1_complex", mr.s1_complex.getD (defaultModel strat Slot.s1_complex)),
   ("s2_coordination", mr.s2_coordination.getD (defaultModel strat Slot.s2_coordination)),
   ("s3_optimization", mr.s3_optimization.getD (defaultModel strat Slot.s3_optimization)),
   ("s3_star_audit", resolvedAuditor cfg strat),
   ("s4_intelligence", mr.s4_intelligence.getD (defaultModel strat Slot.s4_intelligence)),
   ("s5_preparation", mr.s5_preparation.getD (defaultModel strat Slot.s5_preparation))]
  ++ cfg.viable_system.system_1.map (fun u => (u.name, resolveUnitModel cfg strat u))

/-- The seven fixed routing slot keys, in canonical order. -/
def routingSlotKeys : List String :=
  ["s1_routine", "s1_complex", "s2_coordination", "s3_optimization",
   "s3_star_audit", "s4_intelligence", "s5_preparation"]

/-- Modelled from the spec: the base management share (percent) of a strategy
tier. -/
def stratBase : Strategy → Nat
  | Strategy.frugal => 30
  | Strategy.balanced => 40
  | Strategy.performance => 50

/-- Modelled from the spec: the management-pool percentage of the budget, a
pure function of unit count and strategy; more units and higher strategies
shift more toward management; with zero units everything is management. -/
def mgmtPercent (n : Nat) (s : Strategy) : Nat :=
  if n = 0 then 100 else min 80 (stratBase s + 2 * n)

/-- Modelled from the spec: a unit's effective weight; default 5 when unset,
a weight of 0 is floored to 1. -/
def unitWeight (u : S1Unit) : Nat :=
  match u.weight with
  | none => 5
  | some 0 => 1
  | some w => w

/-- Intermediate allocation before percentages are attached. -/
structure PreAlloc where
  system : String
  friendly_name : String
  amount : Nat
  model : String
  deriving Repr, DecidableEq

/-- Modelled from the spec: the operational allocations, distributing the
operational pool proportionally to unit weights (floor division). -/
def opPre (cfg : Config) (strat : Strategy) (units : List S1Unit) (pool : Nat) : List PreAlloc :=
  let w := (units.map unitWeight).sum
  units.map (fun u =>
    { system := "S1:" ++ u.name, friendly_name := u.name,
      amount := pool * unitWeight u / w, model := resolveUnitModel cfg strat u })

/-- Modelled from the spec: the five management allocations with fixed shares
20/25/20/20/15, the rounding remainder going to the largest-share function
(the Optimizer), so they sum to exactly the pool. -/
def mgmtPre (cfg : Config) (strat : Strategy) (pool : Nat) : List PreAlloc :=
  let a2 := pool * 20 / 100
  let a3 := pool * 25 / 100
  let a3s := pool * 20 / 100
  let a4 := pool * 20 / 100
  let a5 := pool * 15 / 100
  let rem := pool - (a2 + a3 + a3s + a4 + a5)
  let mr := routingOf cfg
  [{ system := "S2", friendly_name := "Coordinator", amount := a2,
     model := mr.s2_coordination.getD (defaultModel strat Slot.s2_coordination) },
   { system := "S3", friendly_name := "Optimizer", amount := a3 + rem,
     model := mr.s3_optimization.getD (defaultModel strat Slot.s3_optimization) },
   { system := "S3*", friendly_name := "Auditor", amount := a3s,
     model := resolvedAuditor cfg strat },
   { system := "S4", friendly_name := "Scout", amount := a4,
     model := mr.s4_intelligence.getD (defaultModel strat Slot.s4_intelligence) },
   { system := "S5", friendly_name := "Policy Guardian", amount := a5,
     model := mr.s5_preparation.getD (defaultModel strat Slot.s5_preparation) }]

/-- Modelled from the spec: an allocation's percentage of the total, rounded
to the nearest integer. -/
def roundPct (amount total : Nat) : Int :=
  (((200 * amount + total) / (2 * total) : Nat) : Int)

/-- Add d to the element at index i (no change when i is out of range). -/
def addAtIdx : List Int → Nat → Int → List Int
  | [], _, _ => []
  | x :: xs, 0, d => (x + d) :: xs
  | x :: xs, i + 1, d => x :: addAtIdx xs i d

/-- Index of the first largest element of the list. -/
def argmaxIdx : List Nat → Nat
  | [] => 0
  | [_] => 0
  | x :: y :: xs =>
    let j := argmaxIdx (y :: xs)
    if x < (y :: xs).getD j 0 then j + 1 else 0

/-- Attach a percentage to an intermediate allocation. -/
def mkAlloc (p : PreAlloc) (pct : Int) : BudgetAllocation :=
  { system := p.system, friendly_name := p.friendly_name,
    monthly_usd := p.amount, model := p.model, percentage := pct }

/-- The budget total in cents of a validated budget. -/
def planTotal (b : Budget) : Nat := b.monthly_usd.toNat

/-- The management pool of the plan. -/
def planMgmtPool (cfg : Config) (b : Budget) : Nat :=
  planTotal b * mgmtPercent cfg.viable_system.system_1.length (toStrategy b.strategy) / 100

/-- The operational pool of the plan. -/
def planOpPool (cfg : Config) (b : Budget) : Nat :=
  planTotal b - planMgmtPool cfg b

/-- The intermediate allocation list of the plan: operational units first,
then the five management functions. -/
def planPre (cfg : Config) (b : Budget) : List PreAlloc :=
  opPre cfg (toStrategy b.strategy) cfg.viable_system.system_1 (planOpPool cfg b)
    ++ mgmtPre cfg (toStrategy b.strategy) (planMgmtPool cfg b)

/-- Modelled from the spec: the percentage list, rounded per allocation with
the rounding remainder absorbed by the largest allocation so the percentages
sum to exactly 100. -/
def planPcts (cfg : Config) (b : Budget) : List Int :=
  let amounts := (planPre cfg b).map (fun p => p.amount)
  let raw := amounts.map (fun a => roundPct a (planTotal b))
  addAtIdx raw (argmaxIdx amounts) (100 - raw.sum)

/-- Modelled from the spec: assemble the budget plan of a validated budget. -/
def buildPlan (cfg : Config) (b : Budget) : BudgetPlan :=
  { total_monthly_usd := planTotal b
    strategy := b.strategy
    allocations := List.zipWith mkAlloc (planPre cfg b) (planPcts cfg b)
    model_routing := resolveRouting cfg (toStrategy b.strategy) }

/-- The allocator's error kind. -/
inductive AllocError where
  | invalidBudget
  deriving Repr, DecidableEq

/-- Modelled from the spec: the Budget Allocator; fails with InvalidBudgetError
when the monthly budget is missing or non-positive, otherwise total and
deterministic. -/
def allocate (cfg : Config) : Except AllocError BudgetPlan :=
  match cfg.viable_system.budget with
  | none => Except.error AllocError.invalidBudget
  | some b =>
    if b.monthly_usd ≤ 0 then Except.error AllocError.invalidBudget
    else Except.ok (buildPlan cfg b)

/-! ## Concrete fixtures used by the witnesses -/

/-- A balanced budget of 150 USD (15000 cents). -/
def b150 : Budget := { monthly_usd := 15000, strategy := "balanced" }

/-- High-autonomy operational unit fixture. -/
def unitGrowth : S1Unit :=
  { name := "Growth", purpose := "grow revenue", autonomy := some "full_auto", weight := some 2 }

/-- Second operational unit fixture. -/
def unitSupport : S1Unit :=
  { name := "Support", purpose := "help customers", weight := some 8 }

/-- A config with two weighted units and a positive balanced budget. -/
def cfg150 : Config :=
  { viable_system :=
    { name := "Org"
      identity := { purpose := "Ship value" }
      system_1 := [unitGrowth, unitSupport]
      budget := some b150 } }

/-- A config with no operational units and a positive balanced budget. -/
def cfgNoOps : Config :=
  { viable_system :=
    { name := "Org"
      identity := { purpose := "Ship value" }
      system_1 := []
      budget := some b150 } }

/-- A zero budget. -/
def bZero : Budget := { monthly_usd := 0, strategy := "balanced" }

/-- A config whose monthly budget is zero. -/
def cfgZero : Config :=
  { viable_system :=
    { name := "Org"
      identity := { purpose := "Ship value" }
      system_1 := []
      budget := some bZero } }

/-- A config whose only populated System-4 monitoring list is regulation. -/
def regOnlyConfig : Config :=
  { viable_system :=
    { name := "Org"
      identity := { purpose := "Ship value" }
      system_1 := []
      system_4 := some { monitoring := some { regulation := some ["GDPR"] } } } }

/-! ## Supporting lemmas -/

lemma allocate_ok_elim {cfg : Config} {plan : BudgetPlan}
    (h : allocate cfg = Except.ok plan) :
    ∃ b, cfg.viable_system.budget = some b ∧ 0 < b.monthly_usd ∧ plan = buildPlan cfg b := by
  cases hb : cfg.viable_system.budget with
  | none =>
    have he : allocate cfg = Except.error AllocError.invalidBudget := by
      unfold allocate; rw [hb]
    rw [he] at h
    exact absurd h (by simp)
  | some b =>
    by_cases hle : b.monthly_usd ≤ 0
    · have he : allocate cfg = Except.error AllocError.invalidBudget := by
        unfold allocate; rw [hb]; exact if_pos hle
      rw [he] at h
      exact absurd h (by simp)
    · have he : allocate cfg = Except.ok (buildPlan cfg b) := by
        unfold allocate; rw [hb]; exact if_neg hle
      rw [he] at h
      exact ⟨b, rfl, by omega, (Except.ok.inj h).symm⟩

lemma map_monthly_zipWith :
    ∀ (pre : List PreAlloc) (pcts : List Int), pre.length = pcts.length →
      (List.zipWith mkAlloc pre pcts).map (fun a => a.monthly_usd)
        = pre.map (fun p => p.amount) := by
  intro pre
  induction pre with
  | nil => intro pcts _; simp
  | cons p ps ih =>
    intro pcts h
    cases pcts with
    | nil => simp at h
    | cons q qs => simp [mkAlloc, ih qs (by simpa using h)]

lemma map_pct_zipWith :
    ∀ (pre : List PreAlloc) (pcts : List Int), pre.length = pcts.length →
      (List.zipWith mkAlloc pre pcts).map (fun a => a.percentage) = pcts := by
  intro pre
  induction pre with
  | nil => intro pcts h; cases pcts with
    | nil => simp
    | cons q qs => simp at h
  | cons p ps ih =>
    intro pcts h
    cases pcts with
    | nil => simp at h
    | cons q qs => simp [mkAlloc, ih qs (by simpa using h)]

lemma map_system_zipWith :
    ∀ (pre : List PreAlloc) (pcts : List Int), pre.length = pcts.length →
      (List.zipWith mkAlloc pre pcts).map (fun a => a.system)
        = pre.map (fun p => p.system) := by
  intro pre
  induction pre with
  | nil => intro pcts _; simp
  | cons p ps ih =>
    intro pcts h
    cases pcts with
    | nil => simp at h
    | cons q qs => simp [mkAlloc, ih qs (by simpa using h)]

lemma addAtIdx_length (xs : List Int) (i : Nat) (d : Int) :
    (addAtIdx xs i d).length = xs.length := by
  induction xs generalizing i with
  | nil => rfl
  | cons x xs ih =>
    cases i with
    | zero => rfl
    | succ j => simp [addAtIdx, ih]

lemma addAtIdx_sum (xs : List Int) (i : Nat) (d : Int) (h : i < xs.length) :
    (addAtIdx xs i d).sum = xs.sum + d := by
  induction xs generalizing i with
  | nil => simp at h
  | cons x xs ih =>
    cases i with
    | zero => simp [addAtIdx]; ring
    | succ j =>
      have := ih j (by simpa using h)
      simp [addAtIdx, this]; ring

lemma argmaxIdx_lt (xs : List Nat) (h : xs ≠ []) : argmaxIdx xs < xs.length := by
  induction xs with
  | nil => exact absurd rfl h
  | cons x xs ih =>
    cases xs with
    | nil => simp [argmaxIdx]
    | cons y ys =>
      have hlt := ih (by simp)
      simp only [argmaxIdx]
      split
      · simpa using Nat.succ_lt_succ hlt
      · simp

lemma div_add_div_le (a b w : Nat) : a / w + b / w ≤ (a + b) / w := by
  rcases Nat.eq_zero_or_pos w with hw | hw
  · subst hw; simp
  · rw [Nat.le_div_iff_mul_le hw, Nat.add_mul]
    exact Nat.add_le_add (Nat.div_mul_le_self a w) (Nat.div_mul_le_self b w)

lemma sum_map_div_le (w : Nat) (l : List Nat) :
    (l.map (fun a => a / w)).sum ≤ l.sum / w := by
  induction l with
  | nil => simp
  | cons a l ih =>
    simp only [List.map_cons, List.sum_cons]
    exact le_trans (Nat.add_le_add_left ih _) (div_add_div_le a l.sum w)

lemma sum_weighted_div_le (pool w : Nat) :
    ∀ ws : List Nat, (ws.map (fun x => pool * x / w)).sum ≤ pool * ws.sum / w := by
  intro ws
  induction ws with
  | nil => simp
  | cons a l ih =>
    simp only [List.map_cons, List.sum_cons]
    calc pool * a / w + (l.map (fun x => pool * x / w)).sum
        ≤ pool * a / w + pool * l.sum / w := Nat.add_le_add_left ih _
    _ ≤ (pool * a + pool * l.sum) / w := div_add_div_le _ _ _
    _ = pool * (a + l.sum) / w := by rw [Nat.mul_add]

lemma sum_div_lower (P w : Nat) (hw : 0 < w) (l : List Nat) :
    P * l.sum ≤ w * (l.map (fun x => P * x / w)).sum + l.length * w := by
  induction l with
  | nil => simp
  | cons a l ih =>
    have hmod : (P * a) % w < w := Nat.mod_lt _ hw
    have hdm := Nat.div_add_mod (P * a) w
    have h1 : P * a ≤ w * (P * a / w) + w := by
      calc P * a = w * (P * a / w) + (P * a) % w := hdm.symm
      _ ≤ w * (P * a / w) + w := Nat.add_le_add_left hmod.le _
    simp only [List.map_cons, List.sum_cons, List.length_cons]
    calc P * (a + l.sum) = P * a + P * l.sum := by ring
    _ ≤ (w * (P * a / w) + w) + (w * (l.map (fun x => P * x / w)).sum + l.length * w) :=
        Nat.add_le_add h1 ih
    _ = w * (P * a / w + (l.map (fun x => P * x / w)).sum) + (l.length + 1) * w := by ring

lemma unitWeight_pos (u : S1Unit) : 0 < unitWeight u := by
  unfold unitWeight
  cases u.weight with
  | none => decide
  | some w => cases w with
    | zero => decide
    | succ k => exact Nat.succ_pos k

lemma opPre_map_amount (cfg : Config) (strat : Strategy) (units : List S1Unit) (pool : Nat) :
    (opPre cfg strat units pool).map (fun p => p.amount)
      = (units.map unitWeight).map (fun x => pool * x / (units.map unitWeight).sum) := by
  unfold opPre
  rw [List.map_map, List.map_map]
  rfl

lemma sum_map_zero {α : Type} (l : List α) (f : α → Nat) (h : ∀ x ∈ l, f x = 0) :
    (l.map f).sum = 0 := by
  induction l with
  | nil => rfl
  | cons a t ih =>
    simp only [List.map_cons, List.sum_cons, h a (List.mem_cons_self a t),
      ih (fun x hx => h x (List.mem_cons_of_mem a hx)), Nat.add_zero]

lemma opPre_sum_le (cfg : Config) (strat : Strategy) (units : List S1Unit) (pool : Nat) :
    ((opPre cfg strat units pool).map (fun p => p.amount)).sum ≤ pool := by
  rw [opPre_map_amount]
  have h := sum_weighted_div_le pool (units.map unitWeight).sum (units.map unitWeight)
  rcases Nat.eq_zero_or_pos (units.map unitWeight).sum with h0 | hpos
  · have hz : ((units.map unitWeight).map
        (fun x => pool * x / (units.map unitWeight).sum)).sum = 0 :=
      sum_map_zero _ _ (fun x _ => by rw [h0, Nat.div_zero])
    rw [hz]
    exact Nat.zero_le pool
  · calc ((units.map unitWeight).map (fun x => pool * x / (units.map unitWeight).sum)).sum
        ≤ pool * (units.map unitWeight).sum / (units.map unitWeight).sum := h
    _ = pool := Nat.mul_div_cancel pool hpos

lemma opPre_sum_lower (cfg : Config) (strat : Strategy) (units : List S1Unit) (pool : Nat)
    (hne : units ≠ []) :
    pool ≤ ((opPre cfg strat units pool).map (fun p => p.amount)).sum + units.length := by
  rw [opPre_map_amount]
  have hwpos : 0 < (units.map unitWeight).sum := by
    apply List.sum_pos
    · intro x hx
      obtain ⟨u, _, rfl⟩ := List.mem_map.mp hx
      exact unitWeight_pos u
    · simpa using hne
  have hbound := sum_div_lower pool (units.map unitWeight).sum hwpos (units.map unitWeight)
  have hlen : (units.map unitWeight).length = units.length := List.length_map units unitWeight
  have h3 : pool * (units.map unitWeight).sum
      ≤ (((units.map unitWeight).map (fun x => pool * x / (units.map unitWeight).sum)).sum
          + (units.map unitWeight).length) * (units.map unitWeight).sum := by
    calc pool * (units.map unitWeight).sum
        ≤ (units.map unitWeight).sum
            * ((units.map unitWeight).map (fun x => pool * x / (units.map unitWeight).sum)).sum
          + (units.map unitWeight).length * (units.map unitWeight).sum := hbound
    _ = (((units.map unitWeight).map (fun x => pool * x / (units.map unitWeight).sum)).sum
          + (units.map unitWeight).length) * (units.map unitWeight).sum := by ring
  have h4 := Nat.le_of_mul_le_mul_right h3 hwpos
  omega

lemma mgmtPre_sum (cfg : Config) (strat : Strategy) (pool : Nat) :
    ((mgmtPre cfg strat pool).map (fun p => p.amount)).sum = pool := by
  show pool * 20 / 100 + ((pool * 25 / 100
      + (pool - (pool * 20 / 100 + pool * 25 / 100 + pool * 20 / 100
          + pool * 20 / 100 + pool * 15 / 100)))
    + (pool * 20 / 100 + (pool * 20 / 100 + (pool * 15 / 100 + 0)))) = pool
  omega

lemma mgmtPercent_le (n : Nat) (s : Strategy) : mgmtPercent n s ≤ 100 := by
  unfold mgmtPercent
  split
  · exact le_refl 100
  · exact le_trans (Nat.min_le_left 80 _) (by norm_num)

lemma planMgmtPool_le (cfg : Config) (b : Budget) : planMgmtPool cfg b ≤ planTotal b := by
  unfold planMgmtPool
  calc planTotal b * mgmtPercent cfg.viable_system.system_1.length (toStrategy b.strategy) / 100
      ≤ planTotal b * 100 / 100 :=
        Nat.div_le_div_right (Nat.mul_le_mul_left _ (mgmtPercent_le _ _))
  _ = planTotal b := Nat.mul_div_cancel _ (by norm_num)

lemma planPre_length (cfg : Config) (b : Budget) :
    (planPre cfg b).length = cfg.viable_system.system_1.length + 5 := by
  simp [planPre, opPre, mgmtPre]

lemma planPre_sum_le (cfg : Config) (b : Budget) :
    ((planPre cfg b).map (fun p => p.amount)).sum ≤ planTotal b := by
  have h1 := opPre_sum_le cfg (toStrategy b.strategy) cfg.viable_system.system_1 (planOpPool cfg b)
  have h2 := mgmtPre_sum cfg (toStrategy b.strategy) (planMgmtPool cfg b)
  have h3 := planMgmtPool_le cfg b
  have h4 : planOpPool cfg b = planTotal b - planMgmtPool cfg b := rfl
  unfold planPre
  rw [List.map_append, List.sum_append]
  omega

lemma planMgmtPool_empty (cfg : Config) (b : Budget)
    (h : cfg.viable_system.system_1 = []) : planMgmtPool cfg b = planTotal b := by
  unfold planMgmtPool
  rw [h]
  simp [mgmtPercent]

lemma planPre_sum_lower (cfg : Config) (b : Budget) :
    planTotal b ≤ ((planPre cfg b).map (fun p => p.amount)).sum + (planPre cfg b).length := by
  by_cases hu : cfg.viable_system.system_1 = []
  · have hm := planMgmtPool_empty cfg b hu
    have h2 := mgmtPre_sum cfg (toStrategy b.strategy) (planMgmtPool cfg b)
    have h1 := opPre_sum_le cfg (toStrategy b.strategy) cfg.viable_system.system_1
      (planOpPool cfg b)
    unfold planPre
    rw [List.map_append, List.sum_append]
    omega
  · have h1 := opPre_sum_lower cfg (toStrategy b.strategy) cfg.viable_system.system_1
      (planOpPool cfg b) hu
    have h2 := mgmtPre_sum cfg (toStrategy b.strategy) (planMgmtPool cfg b)
    have h3 := planMgmtPool_le cfg b
    have h4 : planOpPool cfg b = planTotal b - planMgmtPool cfg b := rfl
    have h5 := planPre_length cfg b
    unfold planPre at h5 ⊢
    rw [List.map_append, List.sum_append, List.length_append]
    rw [List.length_append] at h5
    omega

lemma planPcts_length (cfg : Config) (b : Budget) :
    (planPcts cfg b).length = (planPre cfg b).length := by
  simp [planPcts, addAtIdx_length]

lemma planPcts_sum (cfg : Config) (b : Budget) : (planPcts cfg b).sum = 100 := by
  unfold planPcts
  have hne : (planPre cfg b).map (fun p => p.amount) ≠ [] := by
    have hlp := planPre_length cfg b
    intro hcon
    have hzero : ((planPre cfg b).map (fun p => p.amount)).length = 0 := by rw [hcon]; rfl
    rw [List.length_map, hlp] at hzero
    omega
  have hidx : argmaxIdx ((planPre cfg b).map (fun p => p.amount))
      < ((planPre cfg b).map (fun p => p.amount)).length := argmaxIdx_lt _ hne
  rw [addAtIdx_sum _ _ _ (by simpa [List.length_map] using hidx)]
  omega

lemma lookup_append_isSome {α β : Type} [BEq α] (l₁ l₂ : List (α × β)) (k : α)
    (h : (l₂.lookup k).isSome = true) : ((l₁ ++ l₂).lookup k).isSome = true := by
  induction l₁ with
  | nil => simpa using h
  | cons a l ih =>
    rcases a with ⟨ka, va⟩
    simp only [List.cons_append, List.lookup]
    cases hk : k == ka
    · simpa using ih
    · rfl

lemma lookup_map_name_isSome (f : S1Unit → String) :
    ∀ (units : List S1Unit) (u : S1Unit), u ∈ units →
      (((units.map (fun v => (v.name, f v))).lookup u.name).isSome) = true := by
  intro units
  induction units with
  | nil => intro u hu; cases hu
  | cons v vs ih =>
    intro u hu
    simp only [List.map_cons, List.lookup]
    cases hk : u.name == v.name
    · rcases List.mem_cons.mp hu with rfl | hmem
      · rw [beq_self_eq_true] at hk
        cases hk
      · simpa using ih u hmem
    · rfl

lemma no_s1_allocations (l : List BudgetAllocation)
    (hl : l.map (fun a => a.system) = ["S2", "S3", "S3*", "S4", "S5"]) :
    l.filter (fun a => isOperationalKey a.system) = [] := by
  rw [List.filter_eq_nil_iff]
  intro a ha
  have hmem : a.system ∈ l.map (fun x => x.system) := List.mem_map_of_mem _ ha
  rw [hl] at hmem
  simp only [List.mem_cons, List.not_mem_nil, or_false] at hmem
  rcases hmem with h | h | h | h | h <;> rw [h] <;> decide

/-! ## Claim theorems -/

/-- C1: for every Config accepted by the allocator (positive budget), the
allocations' monetary values sum to total_monthly_usd within 1 currency unit
times the allocation count, and the percentage fields sum to exactly 100. -/
theorem budget_plan_sum_invariant (cfg : Config) (plan : BudgetPlan)
    (h : allocate cfg = Except.ok plan) :
    (plan.allocations.map (fun a => a.monthly_usd)).sum ≤ plan.total_monthly_usd
    ∧ plan.total_monthly_usd
        ≤ (plan.allocations.map (fun a => a.monthly_usd)).sum + plan.allocations.length
    ∧ (plan.allocations.map (fun a => a.percentage)).sum = 100 := by
  obtain ⟨b, hb, hpos, rfl⟩ := allocate_ok_elim h
  have hlen : (planPre cfg b).length = (planPcts cfg b).length := (planPcts_length cfg b).symm
  have hm : (buildPlan cfg b).allocations.map (fun a => a.monthly_usd)
      = (planPre cfg b).map (fun p => p.amount) := map_monthly_zipWith _ _ hlen
  have hp : (buildPlan cfg b).allocations.map (fun a => a.percentage)
      = planPcts cfg b := map_pct_zipWith _ _ hlen
  have hal : (buildPlan cfg b).allocations.length = (planPre cfg b).length := by
    show (List.zipWith mkAlloc (planPre cfg b) (planPcts cfg b)).length = (planPre cfg b).length
    rw [List.length_zipWith, hlen, Nat.min_self]
  have ht : (buildPlan cfg b).total_monthly_usd = planTotal b := rfl
  refine ⟨?_, ?_, ?_⟩
  · rw [hm, ht]; exact planPre_sum_le cfg b
  · rw [hm, ht, hal]; exact planPre_sum_lower cfg b
  · rw [hp]; exact planPcts_sum cfg b

/-- C1 witness: the invariant holds for the concrete two-unit config with a
150 USD balanced budget. -/
theorem budget_plan_sum_invariant_witness :
    (((buildPlan cfg150 b150).allocations.map (fun a => a.monthly_usd)).sum
        ≤ (buildPlan cfg150 b150).total_monthly_usd)
    ∧ ((buildPlan cfg150 b150).total_monthly_usd
        ≤ ((buildPlan cfg150 b150).allocations.map (fun a => a.monthly_usd)).sum
            + (buildPlan cfg150 b150).allocations.length)
    ∧ (((buildPlan cfg150 b150).allocations.map (fun a => a.percentage)).sum = 100) :=
  budget_plan_sum_invariant cfg150 (buildPlan cfg150 b150) rfl

/-- C2: for every Config, the viability report carries exactly the six checks
in the canonical order S1, S2, S3, S3*, S4, S5, its total is 6, and its score
counts the checks whose present field is true. -/
theorem viability_report_shape (cfg : Config) :
    (check cfg).checks.map (fun c => c.system) = ["S1", "S2", "S3", "S3*", "S4", "S5"]
    ∧ (check cfg).checks.length = 6
    ∧ (check cfg).total = 6
    ∧ (check cfg).score = (check cfg).checks.countP (fun c => c.present) :=
  ⟨rfl, rfl, rfl, rfl⟩

/-- C3: for every computed BudgetPlan without an explicit Auditor override,
the Auditor's resolved model has a different provider than the default S1
routine model of the plan's strategy. -/
theorem auditor_provider_diversity (cfg : Config) (plan : BudgetPlan) (m : String)
    (h : allocate cfg = Except.ok plan)
    (hov : (routingOf cfg).s3_star_audit = none)
    (hlk : plan.model_routing.lookup "s3_star_audit" = some m) :
    modelProvider m
      ≠ modelProvider (defaultModel (toStrategy plan.strategy) Slot.s1_routine) := by
  obtain ⟨b, hb, hpos, rfl⟩ := allocate_ok_elim h
  have hres : (buildPlan cfg b).model_routing.lookup "s3_star_audit"
      = some (resolvedAuditor cfg (toStrategy b.strategy)) := rfl
  rw [hres] at hlk
  have hm : m = resolvedAuditor cfg (toStrategy b.strategy) := (Option.some.inj hlk).symm
  subst hm
  show modelProvider (resolvedAuditor cfg (toStrategy b.strategy))
      ≠ modelProvider (defaultModel (toStrategy b.strategy) Slot.s1_routine)
  unfold resolvedAuditor
  rw [hov]
  cases toStrategy b.strategy <;> decide

/-- C3 witness: the concrete balanced config resolves the Auditor to an
OpenAI model while the default S1 routine model is an Anthropic one. -/
theorem auditor_provider_diversity_witness :
    modelProvider "gpt-5.1"
      ≠ modelProvider (defaultModel (toStrategy (buildPlan cfg150 b150).strategy)
          Slot.s1_routine) :=
  auditor_provider_diversity cfg150 (buildPlan cfg150 b150) "gpt-5.1" rfl rfl rfl

/-- C4: when the monthly budget is missing, zero or negative, allocate fails
with InvalidBudgetError, while check still produces a full six-check report —
the two computations are decoupled. -/
theorem invalid_budget_fails_check_succeeds (cfg : Config)
    (h : cfg.viable_system.budget = none
      ∨ ∃ b, cfg.viable_system.budget = some b ∧ b.monthly_usd ≤ 0) :
    allocate cfg = Except.error AllocError.invalidBudget
    ∧ (check cfg).checks.length = 6 ∧ (check cfg).total = 6 := by
  refine ⟨?_, rfl, rfl⟩
  rcases h with h | ⟨b, hb, hle⟩
  · unfold allocate; rw [h]
  · unfold allocate; rw [hb]; exact if_pos hle

/-- C4 witness: the zero-budget config fails allocation and still gets a full
report. -/
theorem invalid_budget_fails_check_succeeds_witness :
    allocate cfgZero = Except.error AllocError.invalidBudget
    ∧ (check cfgZero).checks.length = 6 ∧ (check cfgZero).total = 6 :=
  invalid_budget_fails_check_succeeds cfgZero (Or.inr ⟨bZero, rfl, by decide⟩)

/-- C5: on a config whose only populated System-4 monitoring list is
regulation, the engine's S4 presence rule counts S4 as configured (the whole
report marks exactly S4 and S5 present here), but the VSM diagram's hasS4
flag from VsmDiagram.tsx line 71 is false, so the diagram renders S4 as "Not
configured yet" — the frontend drops the regulation list. -/
theorem s4_regulation_presence_divergence :
    s4Present regOnlyConfig.viable_system = true
    ∧ ((check regOnlyConfig).checks.map (fun c => c.present))
        = [false, false, false, false, true, true]
    ∧ hasS4 regOnlyConfig.viable_system = false :=
  ⟨rfl, rfl, rfl⟩

/-- C6: every critical warning of a report is rendered by the warnings panel
regardless of the collapse state of the non-critical section, and the
rendered list is independent of the report's numeric score. -/
theorem critical_warnings_always_rendered (report : ViabilityReport) (expanded : Bool) :
    (∀ w ∈ report.warnings, w.severity = Severity.critical →
      w ∈ renderedWarnings report.warnings expanded)
    ∧ (∀ s : Nat, renderedWarnings ({ report with score := s }).warnings expanded
        = renderedWarnings report.warnings expanded) := by
  constructor
  · intro w hw hc
    unfold renderedWarnings
    rw [if_neg]
    · exact List.mem_append_left _ (List.mem_filter.mpr ⟨hw, by rw [hc]; rfl⟩)
    · intro hemp
      rw [List.isEmpty_iff.mp hemp] at hw
      cases hw
  · intro s
    rfl

/-- C6 witness: a concrete critical warning is rendered even with the
non-critical section collapsed. -/
theorem critical_warnings_always_rendered_witness :
    ({ category := "audit", severity := Severity.critical, message := "m",
       suggestion := "s" } : Warning)
      ∈ renderedWarnings
          [{ category := "audit", severity := Severity.critical, message := "m",
             suggestion := "s" }] false :=
  (critical_warnings_always_rendered
    { score := 6, total := 6, checks := [],
      warnings := [{ category := "audit", severity := Severity.critical, message := "m",
                     suggestion := "s" }] } false).1
    _ (List.mem_cons_self _ _) rfl

/-- C7: with no operational units and a positive budget, allocate returns
exactly the five management allocations, in order S2, S3, S3*, S4, S5,
summing to the full budget with zero operational allocations; check marks S1
absent and the score is at most 5. -/
theorem empty_ops_management_only (cfg : Config) (b : Budget) (plan : BudgetPlan)
    (hu : cfg.viable_system.system_1 = [])
    (hb : cfg.viable_system.budget = some b)
    (h : allocate cfg = Except.ok plan) :
    plan.allocations.length = 5
    ∧ plan.allocations.map (fun a => a.system) = ["S2", "S3", "S3*", "S4", "S5"]
    ∧ (plan.allocations.map (fun a => a.monthly_usd)).sum = plan.total_monthly_usd
    ∧ plan.allocations.filter (fun a => isOperationalKey a.system) = []
    ∧ ((check cfg).checks.map (fun c => (c.system, c.present))).head? = some ("S1", false)
    ∧ (check cfg).score ≤ 5 := by
  obtain ⟨b2, hb2, hpos, rfl⟩ := allocate_ok_elim h
  rw [hb] at hb2
  obtain rfl := Option.some.inj hb2
  have hpre : planPre cfg b = mgmtPre cfg (toStrategy b.strategy) (planMgmtPool cfg b) := by
    unfold planPre
    rw [hu]
    rfl
  have hlen : (planPre cfg b).length = (planPcts cfg b).length := (planPcts_length cfg b).symm
  have hal : (buildPlan cfg b).allocations.length = (planPre cfg b).length := by
    show (List.zipWith mkAlloc (planPre cfg b) (planPcts cfg b)).length = (planPre cfg b).length
    rw [List.length_zipWith, hlen, Nat.min_self]
  have hsys : (buildPlan cfg b).allocations.map (fun a => a.system)
      = (planPre cfg b).map (fun p => p.system) := map_system_zipWith _ _ hlen
  have hsysval : (planPre cfg b).map (fun p => p.system)
      = ["S2", "S3", "S3*", "S4", "S5"] := by
    rw [hpre]
    rfl
  have hmon : (buildPlan cfg b).allocations.map (fun a => a.monthly_usd)
      = (planPre cfg b).map (fun p => p.amount) := map_monthly_zipWith _ _ hlen
  have hs1f : s1Present cfg.viable_system = false := by
    unfold s1Present
    rw [hu]
    rfl
  refine ⟨?_, ?_, ?_, ?_, ?_, ?_⟩
  · rw [hal, hpre]; rfl
  · rw [hsys, hsysval]
  · rw [hmon, hpre, mgmtPre_sum, planMgmtPool_empty cfg b hu]; rfl
  · exact no_s1_allocations _ (by rw [hsys, hsysval])
  · show ((checkResults cfg.viable_system).map (fun c => (c.system, c.present))).head?
        = some ("S1", false)
    unfold checkResults
    simp only [List.map_cons, List.head?_cons]
    rw [hs1f]
  · show (checkResults cfg.viable_system).countP (fun c => c.present) ≤ 5
    unfold checkResults
    simp only [List.countP_cons, List.countP_nil]
    rw [hs1f]
    simp only [Bool.false_eq_true, if_false, Nat.zero_add, Nat.add_zero]
    split_ifs <;> omega

/-- C7 witness: the concrete no-units config with a 150 USD balanced budget. -/
theorem empty_ops_management_only_witness :
    (buildPlan cfgNoOps b150).allocations.length = 5
    ∧ (buildPlan cfgNoOps b150).allocations.map (fun a => a.system)
        = ["S2", "S3", "S3*", "S4", "S5"]
    ∧ ((buildPlan cfgNoOps b150).allocations.map (fun a => a.monthly_usd)).sum
        = (buildPlan cfgNoOps b150).total_monthly_usd
    ∧ (buildPlan cfgNoOps b150).allocations.filter (fun a => isOperationalKey a.system) = []
    ∧ ((check cfgNoOps).checks.map (fun c => (c.system, c.present))).head?
        = some ("S1", false)
    ∧ (check cfgNoOps).score ≤ 5 :=
  empty_ops_management_only cfgNoOps b150 (buildPlan cfgNoOps b150) rfl rfl rfl

/-- C8: every plan produced by allocate has a model_routing entry for each of
the seven fixed routing slots and one for every S1 unit's name. -/
theorem model_routing_coverage (cfg : Config) (plan : BudgetPlan)
    (h : allocate cfg = Except.ok plan) :
    (∀ slot ∈ routingSlotKeys, (plan.model_routing.lookup slot).isSome = true)
    ∧ (∀ u ∈ cfg.viable_system.system_1,
        (plan.model_routing.lookup u.name).isSome = true) := by
  obtain ⟨b, hb, hpos, rfl⟩ := allocate_ok_elim h
  constructor
  · intro slot hslot
    simp only [routingSlotKeys, List.mem_cons, List.not_mem_nil, or_false] at hslot
    rcases hslot with rfl | rfl | rfl | rfl | rfl | rfl | rfl <;> rfl
  · intro u hu
    show (((resolveRouting cfg (toStrategy b.strategy)).lookup u.name).isSome) = true
    unfold resolveRouting
    exact lookup_append_isSome _ _ _
      (lookup_map_name_isSome (resolveUnitModel cfg (toStrategy b.strategy))
        cfg.viable_system.system_1 u hu)

/-- C8 witness: the concrete plan covers a fixed slot and the Growth unit. -/
theorem model_routing_coverage_witness :
    (((buildPlan cfg150 b150).model_routing.lookup "s1_routine").isSome = true)
    ∧ (((buildPlan cfg150 b150).model_routing.lookup "Growth").isSome = true) := by
  have h := model_routing_coverage cfg150 (buildPlan cfg150 b150) rfl
  refine ⟨h.1 "s1_routine" ?_, ?_⟩
  · show "s1_routine" ∈ routingSlotKeys
    exact List.mem_cons_self _ _
  · have hu : unitGrowth ∈ cfg150.viable_system.system_1 := List.mem_cons_self _ _
    exact h.2 unitGrowth hu

/-- C9: updateVs produces a config whose viable_system takes every field
named by the partial from the partial and every other field from the previous
config, and the other store fields are untouched; the embedding is a pure
function, so the previous config value itself is unchanged. -/
theorem updateVs_frame (s : ConfigStore) (p : PartialViableSystem) :
    (updateVs s p).config.viable_system.name = p.name.getD s.config.viable_system.name
    ∧ (updateVs s p).config.viable_system.runtime
        = p.runtime.getD s.config.viable_system.runtime
    ∧ (updateVs s p).config.viable_system.identity
        = p.identity.getD s.config.viable_system.identity
    ∧ (updateVs s p).config.viable_system.system_1
        = p.system_1.getD s.config.viable_system.system_1
    ∧ (updateVs s p).config.viable_system.system_2
        = p.system_2.getD s.config.viable_system.system_2
    ∧ (updateVs s p).config.viable_system.system_3
        = p.system_3.getD s.config.viable_system.system_3
    ∧ (updateVs s p).config.viable_system.system_3_star
        = p.system_3_star.getD s.config.viable_system.system_3_star
    ∧ (updateVs s p).config.viable_system.system_4
        = p.system_4.getD s.config.viable_system.system_4
    ∧ (updateVs s p).config.viable_system.budget
        = p.budget.getD s.config.viable_system.budget
    ∧ (updateVs s p).config.viable_system.model_routing
        = p.model_routing.getD s.config.viable_system.model_routing
    ∧ (updateVs s p).config.viable_system.human_in_the_loop
        = p.human_in_the_loop.getD s.config.viable_system.human_in_the_loop
    ∧ (updateVs s p).config.viable_system.persistence
        = p.persistence.getD s.config.viable_system.persistence
    ∧ (updateVs s p).wizardStep = s.wizardStep
    ∧ (updateVs s p).view = s.view
    ∧ (updateVs s p).templateKey = s.templateKey :=
  ⟨rfl, rfl, rfl, rfl, rfl, rfl, rfl, rfl, rfl, rfl, rfl, rfl, rfl, rfl, rfl⟩

/-- C10: addCustom leaves the selection unchanged when the trimmed input is
empty or already selected, otherwise appends it exactly once at the end, and
it preserves duplicate-freeness of the selection. -/
theorem addCustom_no_duplicate (selected : List String) (custom : String) :
    (jsTrim custom = "" ∨ jsTrim custom ∈ selected → addCustom selected custom = selected)
    ∧ (jsTrim custom ≠ "" → jsTrim custom ∉ selected →
        addCustom selected custom = selected ++ [jsTrim custom])
    ∧ (selected.Nodup → (addCustom selected custom).Nodup) := by
  refine ⟨?_, ?_, ?_⟩
  · intro h
    unfold addCustom
    rw [if_pos h]
  · intro h1 h2
    unfold addCustom
    rw [if_neg (by tauto)]
  · intro hnd
    unfold addCustom
    split
    · exact hnd
    · rename_i hneg
      push_neg at hneg
      refine List.Nodup.append hnd (List.nodup_singleton _) ?_
      intro a ha hmem
      rw [List.mem_singleton] at hmem
      subst hmem
      exact hneg.2 ha

/-- C10 witness: appending a fresh trimmed item and re-adding an existing
one. -/
theorem addCustom_no_duplicate_witness :
    addCustom ["alpha"] " beta " = ["alpha", "beta"]
    ∧ addCustom ["alpha"] "alpha" = ["alpha"] := by
  have h1 := addCustom_no_duplicate ["alpha"] " beta "
  have h2 := addCustom_no_duplicate ["alpha"] "alpha"
  constructor
  · have hstep := h1.2.1 (by decide) (by decide)
    exact hstep.trans (by decide)
  · exact h2.1 (Or.inr (by decide))

end ViableOS
